import Mathlib

/-!
Verification development for the Oxyde Unreal binding layer
(src/bindings/unreal/OxydeUnreal.{h,cpp}, OxydeAgentComponent.{h,cpp}).

The C++ layer is shallowly embedded as pure Lean functions:
* `OxydeState` mirrors the static members of `UOxydeLibrary` (the library
  handle and the sixteen function-pointer fields); pointers are `Option Nat`
  (`none` = nullptr, `some a` = an address).
* `HostEnv` models the host engine services used by the layer
  (GetDllHandle, GetDllExport, path helpers, LoadFileToString).
* `ForeignEnv` models the behaviour of the foreign shared library: each
  entry point is a function of its (marshalled) arguments.  A foreign
  string result is `Option (Nat × String)`: `none` for a null pointer,
  `some (p, str)` for a buffer at address `p` holding `str`.
* Every operation additionally returns a `List Event` trace recording the
  externally observable actions it performed, in order: library loads,
  symbol resolutions, log lines, invocations of bound function pointers
  (with the used pointer value and any integer arguments), host-side
  copies of foreign strings, and invocations of `free_string`.
  UE_LOG lines outside `InitializeFunctionPointers` are not modelled as
  events; they are fixed texts that name no symbol and no claim depends
  on them.
* The C++ `float`/`double` scalars (importance, valence, emotion
  channels) are passed through the layer unmodified, so they are
  modelled by the opaque carrier `Int`; the only distinguished value the
  binding layer itself ever mentions for them is the default 0.0,
  modelled as `0`.  `uint32`/`int32` conversions are modelled exactly,
  with explicit reduction modulo 2^32 (written as the literal
  4294967296; 2147483648 is 2^31).
-/

namespace Oxyde

/-- Externally observable actions of the binding layer, in program order. -/
inductive Event where
  | loadLibrary : String → Event
  | resolveSymbol : String → Event
  | freeLibrary : Event
  | log : String → Event
  | call : Option Nat → String → List Nat → Event
  | copyToHost : Nat → Event
  | freeString : Option Nat → Nat → Event
deriving DecidableEq

/-- The preprocessor platform selection (PLATFORM_WINDOWS / PLATFORM_MAC /
PLATFORM_LINUX / anything else). -/
inductive Platform where
  | windows
  | mac
  | linux
  | other
deriving DecidableEq

/-- The eight emotion channels handled by `GetAgentEmotionVector`; each C++
`float` channel is carried opaquely as an `Int`. -/
structure EmotionChannels where
  joy : Int
  trust : Int
  fear : Int
  surprise : Int
  sadness : Int
  disgust : Int
  anger : Int
  anticipation : Int
deriving DecidableEq

/-- The Blueprint-visible emotion struct `FOxydeEmotionVector`
(OxydeAgentComponent.h); every field defaults to 0.0. -/
structure FOxydeEmotionVector where
  Joy : Int := 0
  Trust : Int := 0
  Fear : Int := 0
  Surprise : Int := 0
  Sadness : Int := 0
  Disgust : Int := 0
  Anger : Int := 0
  Anticipation : Int := 0
deriving DecidableEq

/-- The static members of `UOxydeLibrary`: the cached library handle and the
sixteen function-pointer fields, in declaration order. -/
structure OxydeState where
  LibraryHandle : Option Nat
  InitFunc : Option Nat
  CreateAgentFunc : Option Nat
  CreateAgentFromJsonFunc : Option Nat
  UpdateAgentFunc : Option Nat
  ProcessInputFunc : Option Nat
  GetAgentStateFunc : Option Nat
  GetEmotionVectorFunc : Option Nat
  FreeStringFunc : Option Nat
  AddMemoryFunc : Option Nat
  AddEmotionalMemoryFunc : Option Nat
  GetMemoryCountFunc : Option Nat
  ClearMemoriesFunc : Option Nat
  GetMemoriesByCategoryFunc : Option Nat
  RetrieveRelevantMemoriesFunc : Option Nat
  ForgetMemoryFunc : Option Nat
  ForgetMemoriesByCategoryFunc : Option Nat
deriving DecidableEq

/-- Host-engine services used by the binding layer. -/
structure HostEnv where
  projectPluginsDir : String
  projectContentDir : String
  convertRelativePathToFull : String → String
  getDllHandle : String → Option Nat
  dllExport : String → Option Nat
  loadFileToString : String → Option String

/-- Behaviour of the foreign shared library entry points.  String results
are `none` (null pointer) or `some (address, contents)`. -/
structure ForeignEnv where
  init : Bool
  create_agent : String → Option (Nat × String)
  create_agent_from_json : String → Option (Nat × String)
  update_agent : String → String → Bool
  process_input : String → String → Option (Nat × String)
  get_agent_state : String → Option (Nat × String)
  get_emotion_vector : String → EmotionChannels → Bool × EmotionChannels
  add_memory : String → String → String → Int → Bool
  add_emotional_memory : String → String → String → Int → Int → Int → Bool
  get_memory_count : String → Nat
  clear_memories : String → Nat
  get_memories_by_category : String → String → Option (Nat × String)
  retrieve_relevant_memories : String → String → Nat → Option (Nat × String)
  forget_memory : String → String → Bool
  forget_memories_by_category : String → String → Nat

/-- The C cast `(uint32)Limit` applied to an `int32`: reduction modulo 2^32. -/
def uint32OfInt (i : Int) : Nat := (i % 4294967296).toNat

/-- The C cast `(int32)` applied to a `uint32` value: two's-complement
reinterpretation (values at or above 2^31 become negative). -/
def int32OfUInt32 (n : Nat) : Int :=
  if n % 4294967296 < 2147483648 then ((n % 4294967296 : Nat) : Int)
  else ((n % 4294967296 : Nat) : Int) - 4294967296

/-- The sixteen exported symbol names resolved by
`InitializeFunctionPointers`, in resolution order. -/
def symbolNames : List String :=
  ["oxyde_unreal_init",
   "oxyde_unreal_create_agent",
   "oxyde_unreal_create_agent_from_json",
   "oxyde_unreal_update_agent",
   "oxyde_unreal_process_input",
   "oxyde_unreal_get_agent_state",
   "oxyde_unreal_get_emotion_vector",
   "oxyde_unreal_free_string",
   "oxyde_unreal_add_memory",
   "oxyde_unreal_add_emotional_memory",
   "oxyde_unreal_get_memory_count",
   "oxyde_unreal_clear_memories",
   "oxyde_unreal_get_memories_by_category",
   "oxyde_unreal_retrieve_relevant_memories",
   "oxyde_unreal_forget_memory",
   "oxyde_unreal_forget_memories_by_category"]

/-- Platform-specific library file name; `none` for the unsupported-platform
branch. -/
def libraryNameFor : Platform → Option String
  | .windows => some "oxyde.dll"
  | .mac => some "liboxyde.dylib"
  | .linux => some "liboxyde.so"
  | .other => none

/-- Platform-specific architecture subfolder under ThirdParty. -/
def archFolder : Platform → String
  | .windows => "Win64"
  | .mac => "Mac"
  | .linux => "Linux"
  | .other => ""

/-- Absolute library path:
`ConvertRelativePathToFull(ProjectPluginsDir / "Oxyde/Binaries/ThirdParty/" / arch / libName)`. -/
def resolvedLibraryPath (henv : HostEnv) (plat : Platform) (libName : String) : String :=
  henv.convertRelativePathToFull
    (henv.projectPluginsDir ++ "Oxyde/Binaries/ThirdParty/" ++ archFolder plat ++ "/" ++ libName)

/-- Diagnostic logged on the unsupported-platform branch. -/
def unsupportedDiagnostic : String := "Unsupported platform for Oxyde SDK"

/-- Diagnostic logged when GetDllHandle fails (the path is formatted in). -/
def loadFailureDiagnostic (path : String) : String :=
  "Failed to load Oxyde SDK library: " ++ path

/-- Diagnostic logged when one or more symbols fail to resolve.  It is a
compile-time constant with no format arguments. -/
def bindFailureDiagnostic : String := "Failed to load one or more Oxyde SDK functions"

/-- Diagnostic logged on a fully successful bind. -/
def loadedDiagnostic : String := "Oxyde SDK library loaded successfully"

/-- The sixteen GetDllExport assignments performed after a successful load:
every function-pointer field is (re)assigned, and the handle field is set. -/
def bindAll (henv : HostEnv) (h : Nat) : OxydeState where
  LibraryHandle := some h
  InitFunc := henv.dllExport "oxyde_unreal_init"
  CreateAgentFunc := henv.dllExport "oxyde_unreal_create_agent"
  CreateAgentFromJsonFunc := henv.dllExport "oxyde_unreal_create_agent_from_json"
  UpdateAgentFunc := henv.dllExport "oxyde_unreal_update_agent"
  ProcessInputFunc := henv.dllExport "oxyde_unreal_process_input"
  GetAgentStateFunc := henv.dllExport "oxyde_unreal_get_agent_state"
  GetEmotionVectorFunc := henv.dllExport "oxyde_unreal_get_emotion_vector"
  FreeStringFunc := henv.dllExport "oxyde_unreal_free_string"
  AddMemoryFunc := henv.dllExport "oxyde_unreal_add_memory"
  AddEmotionalMemoryFunc := henv.dllExport "oxyde_unreal_add_emotional_memory"
  GetMemoryCountFunc := henv.dllExport "oxyde_unreal_get_memory_count"
  ClearMemoriesFunc := henv.dllExport "oxyde_unreal_clear_memories"
  GetMemoriesByCategoryFunc := henv.dllExport "oxyde_unreal_get_memories_by_category"
  RetrieveRelevantMemoriesFunc := henv.dllExport "oxyde_unreal_retrieve_relevant_memories"
  ForgetMemoryFunc := henv.dllExport "oxyde_unreal_forget_memory"
  ForgetMemoriesByCategoryFunc := henv.dllExport "oxyde_unreal_forget_memories_by_category"

/-- The null check of the sixteen function pointers, in source order
(`InitFunc == nullptr || CreateAgentFunc == nullptr || ...`). -/
def anyMissing (s : OxydeState) : Bool :=
  s.InitFunc.isNone || s.CreateAgentFunc.isNone || s.CreateAgentFromJsonFunc.isNone ||
  s.UpdateAgentFunc.isNone || s.ProcessInputFunc.isNone || s.GetAgentStateFunc.isNone ||
  s.GetEmotionVectorFunc.isNone || s.FreeStringFunc.isNone || s.AddMemoryFunc.isNone ||
  s.AddEmotionalMemoryFunc.isNone || s.GetMemoryCountFunc.isNone || s.ClearMemoriesFunc.isNone ||
  s.GetMemoriesByCategoryFunc.isNone || s.RetrieveRelevantMemoriesFunc.isNone ||
  s.ForgetMemoryFunc.isNone || s.ForgetMemoriesByCategoryFunc.isNone

/-- The resolution events of the sixteen GetDllExport calls. -/
def resolveEvents : List Event := symbolNames.map Event.resolveSymbol

/-- State invariant of the layer: whenever a library handle is cached, the
symbol table is fully populated.  It holds in the initial state and is
preserved by every operation. -/
def tableInv (s : OxydeState) : Prop :=
  s.LibraryHandle ≠ none → anyMissing s = false

namespace UOxydeLibrary

/-- UOxydeLibrary::InitializeFunctionPointers.  Returns the new static
state, the boolean result, and the event trace. -/
def InitializeFunctionPointers (plat : Platform) (henv : HostEnv) (s : OxydeState) :
    OxydeState × Bool × List Event :=
  match s.LibraryHandle with
  | some _ => (s, true, [])
  | none =>
    match libraryNameFor plat with
    | none => (s, false, [Event.log unsupportedDiagnostic])
    | some libName =>
      let libraryPath := resolvedLibraryPath henv plat libName
      match henv.getDllHandle libraryPath with
      | none =>
          (s, false, [Event.loadLibrary libraryPath, Event.log (loadFailureDiagnostic libraryPath)])
      | some h =>
          let s2 := bindAll henv h
          if anyMissing s2 then
            ({ s2 with LibraryHandle := none }, false,
             Event.loadLibrary libraryPath :: resolveEvents ++
               [Event.log bindFailureDiagnostic, Event.freeLibrary])
          else
            (s2, true,
             Event.loadLibrary libraryPath :: resolveEvents ++ [Event.log loadedDiagnostic])

/-- The shared marshalling of a foreign call returning a string pointer:
null yields the empty FString; otherwise the buffer is copied into a
host-owned FString and then released through `free_string`. -/
def stringResult (callPtr freePtr : Option Nat) (name : String) (args : List Nat) :
    Option (Nat × String) → String × List Event
  | none => ("", [Event.call callPtr name args])
  | some pr =>
      (pr.2, [Event.call callPtr name args, Event.copyToHost pr.1,
              Event.freeString freePtr pr.1])

/-- UOxydeLibrary::Init. -/
def Init (plat : Platform) (henv : HostEnv) (fenv : ForeignEnv) (s : OxydeState) :
    OxydeState × Bool × List Event :=
  let r := InitializeFunctionPointers plat henv s
  if r.2.1 then
    (r.1, fenv.init, r.2.2 ++ [Event.call r.1.InitFunc "oxyde_unreal_init" []])
  else (r.1, false, r.2.2)

/-- UOxydeLibrary::CreateAgent. -/
def CreateAgent (plat : Platform) (henv : HostEnv) (fenv : ForeignEnv) (s : OxydeState)
    (ConfigPath : String) : OxydeState × String × List Event :=
  let r := InitializeFunctionPointers plat henv s
  if r.2.1 then
    let c := stringResult r.1.CreateAgentFunc r.1.FreeStringFunc "oxyde_unreal_create_agent" []
      (fenv.create_agent ConfigPath)
    (r.1, c.1, r.2.2 ++ c.2)
  else (r.1, "", r.2.2)

/-- UOxydeLibrary::CreateAgentFromJson. -/
def CreateAgentFromJson (plat : Platform) (henv : HostEnv) (fenv : ForeignEnv) (s : OxydeState)
    (JsonConfig : String) : OxydeState × String × List Event :=
  let r := InitializeFunctionPointers plat henv s
  if r.2.1 then
    let c := stringResult r.1.CreateAgentFromJsonFunc r.1.FreeStringFunc
      "oxyde_unreal_create_agent_from_json" [] (fenv.create_agent_from_json JsonConfig)
    (r.1, c.1, r.2.2 ++ c.2)
  else (r.1, "", r.2.2)

/-- UOxydeLibrary::CreateAgentFromContent: reads the config file beneath the
Content directory and delegates to CreateAgentFromJson. -/
def CreateAgentFromContent (plat : Platform) (henv : HostEnv) (fenv : ForeignEnv) (s : OxydeState)
    (ContentPath : String) : OxydeState × String × List Event :=
  let FullPath := henv.projectContentDir ++ "/" ++ ContentPath
  match henv.loadFileToString FullPath with
  | none => (s, "", [])
  | some JsonContent => CreateAgentFromJson plat henv fenv s JsonContent

/-- UOxydeLibrary::UpdateAgentContext. -/
def UpdateAgentContext (plat : Platform) (henv : HostEnv) (fenv : ForeignEnv) (s : OxydeState)
    (AgentId ContextJson : String) : OxydeState × Bool × List Event :=
  let r := InitializeFunctionPointers plat henv s
  if r.2.1 then
    (r.1, fenv.update_agent AgentId ContextJson,
     r.2.2 ++ [Event.call r.1.UpdateAgentFunc "oxyde_unreal_update_agent" []])
  else (r.1, false, r.2.2)

/-- UOxydeLibrary::ProcessInput. -/
def ProcessInput (plat : Platform) (henv : HostEnv) (fenv : ForeignEnv) (s : OxydeState)
    (AgentId Input : String) : OxydeState × String × List Event :=
  let r := InitializeFunctionPointers plat henv s
  if r.2.1 then
    let c := stringResult r.1.ProcessInputFunc r.1.FreeStringFunc "oxyde_unreal_process_input" []
      (fenv.process_input AgentId Input)
    (r.1, c.1, r.2.2 ++ c.2)
  else (r.1, "", r.2.2)

/-- UOxydeLibrary::GetAgentState. -/
def GetAgentState (plat : Platform) (henv : HostEnv) (fenv : ForeignEnv) (s : OxydeState)
    (AgentId : String) : OxydeState × String × List Event :=
  let r := InitializeFunctionPointers plat henv s
  if r.2.1 then
    let c := stringResult r.1.GetAgentStateFunc r.1.FreeStringFunc "oxyde_unreal_get_agent_state" []
      (fenv.get_agent_state AgentId)
    (r.1, c.1, r.2.2 ++ c.2)
  else (r.1, "", r.2.2)

/-- UOxydeLibrary::GetAgentEmotionVector.  Unlike every other operation it
does not call InitializeFunctionPointers: it only null-checks its own
cached pointer.  `prior` models the contents of the caller's eight
float out-parameters before the call; on the null-pointer branch they
are left untouched. -/
def GetAgentEmotionVector (fenv : ForeignEnv) (s : OxydeState) (AgentId : String)
    (prior : EmotionChannels) : OxydeState × (Bool × EmotionChannels) × List Event :=
  match s.GetEmotionVectorFunc with
  | none => (s, (false, prior), [])
  | some p =>
      (s, fenv.get_emotion_vector AgentId prior,
       [Event.call (some p) "oxyde_unreal_get_emotion_vector" []])

/-- UOxydeLibrary::AddMemory. -/
def AddMemory (plat : Platform) (henv : HostEnv) (fenv : ForeignEnv) (s : OxydeState)
    (AgentId Category Content : String) (Importance : Int) : OxydeState × Bool × List Event :=
  let r := InitializeFunctionPointers plat henv s
  if r.2.1 then
    (r.1, fenv.add_memory AgentId Category Content Importance,
     r.2.2 ++ [Event.call r.1.AddMemoryFunc "oxyde_unreal_add_memory" []])
  else (r.1, false, r.2.2)

/-- UOxydeLibrary::AddEmotionalMemory. -/
def AddEmotionalMemory (plat : Platform) (henv : HostEnv) (fenv : ForeignEnv) (s : OxydeState)
    (AgentId Category Content : String) (Importance Valence Intensity : Int) :
    OxydeState × Bool × List Event :=
  let r := InitializeFunctionPointers plat henv s
  if r.2.1 then
    (r.1, fenv.add_emotional_memory AgentId Category Content Importance Valence Intensity,
     r.2.2 ++ [Event.call r.1.AddEmotionalMemoryFunc "oxyde_unreal_add_emotional_memory" []])
  else (r.1, false, r.2.2)

/-- UOxydeLibrary::GetMemoryCount: the foreign uint32 is cast to int32. -/
def GetMemoryCount (plat : Platform) (henv : HostEnv) (fenv : ForeignEnv) (s : OxydeState)
    (AgentId : String) : OxydeState × Int × List Event :=
  let r := InitializeFunctionPointers plat henv s
  if r.2.1 then
    (r.1, int32OfUInt32 (fenv.get_memory_count AgentId),
     r.2.2 ++ [Event.call r.1.GetMemoryCountFunc "oxyde_unreal_get_memory_count" []])
  else (r.1, 0, r.2.2)

/-- UOxydeLibrary::ClearMemories: the foreign uint32 is cast to int32. -/
def ClearMemories (plat : Platform) (henv : HostEnv) (fenv : ForeignEnv) (s : OxydeState)
    (AgentId : String) : OxydeState × Int × List Event :=
  let r := InitializeFunctionPointers plat henv s
  if r.2.1 then
    (r.1, int32OfUInt32 (fenv.clear_memories AgentId),
     r.2.2 ++ [Event.call r.1.ClearMemoriesFunc "oxyde_unreal_clear_memories" []])
  else (r.1, 0, r.2.2)

/-- UOxydeLibrary::GetMemoriesByCategory. -/
def GetMemoriesByCategory (plat : Platform) (henv : HostEnv) (fenv : ForeignEnv) (s : OxydeState)
    (AgentId Category : String) : OxydeState × String × List Event :=
  let r := InitializeFunctionPointers plat henv s
  if r.2.1 then
    let c := stringResult r.1.GetMemoriesByCategoryFunc r.1.FreeStringFunc
      "oxyde_unreal_get_memories_by_category" [] (fenv.get_memories_by_category AgentId Category)
    (r.1, c.1, r.2.2 ++ c.2)
  else (r.1, "", r.2.2)

/-- UOxydeLibrary::RetrieveRelevantMemories: the int32 Limit is cast to
uint32 before being handed to the foreign function; the cast value is
recorded as the call's integer argument. -/
def RetrieveRelevantMemories (plat : Platform) (henv : HostEnv) (fenv : ForeignEnv) (s : OxydeState)
    (AgentId Query : String) (Limit : Int) : OxydeState × String × List Event :=
  let r := InitializeFunctionPointers plat henv s
  if r.2.1 then
    let c := stringResult r.1.RetrieveRelevantMemoriesFunc r.1.FreeStringFunc
      "oxyde_unreal_retrieve_relevant_memories" [uint32OfInt Limit]
      (fenv.retrieve_relevant_memories AgentId Query (uint32OfInt Limit))
    (r.1, c.1, r.2.2 ++ c.2)
  else (r.1, "", r.2.2)

/-- UOxydeLibrary::ForgetMemory. -/
def ForgetMemory (plat : Platform) (henv : HostEnv) (fenv : ForeignEnv) (s : OxydeState)
    (AgentId MemoryId : String) : OxydeState × Bool × List Event :=
  let r := InitializeFunctionPointers plat henv s
  if r.2.1 then
    (r.1, fenv.forget_memory AgentId MemoryId,
     r.2.2 ++ [Event.call r.1.ForgetMemoryFunc "oxyde_unreal_forget_memory" []])
  else (r.1, false, r.2.2)

/-- UOxydeLibrary::ForgetMemoriesByCategory: the foreign uint32 is cast to
int32. -/
def ForgetMemoriesByCategory (plat : Platform) (henv : HostEnv) (fenv : ForeignEnv) (s : OxydeState)
    (AgentId Category : String) : OxydeState × Int × List Event :=
  let r := InitializeFunctionPointers plat henv s
  if r.2.1 then
    (r.1, int32OfUInt32 (fenv.forget_memories_by_category AgentId Category),
     r.2.2 ++ [Event.call r.1.ForgetMemoriesByCategoryFunc
       "oxyde_unreal_forget_memories_by_category" []])
  else (r.1, 0, r.2.2)

end UOxydeLibrary

namespace UOxydeEmotionBP

/-- UOxydeEmotionBP::GetAgentEmotionVector (OxydeAgentComponent.cpp):
calls the library-level emotion query (the source's `OxydeUnreal::`
qualifier is read as `UOxydeLibrary::`, the only such function in the
plugin) on eight uninitialized float locals, modelled by `locals`; on
success it packs the outputs into a struct, otherwise it returns the
default-constructed struct whose channels are all 0.0. -/
def GetAgentEmotionVector (fenv : ForeignEnv) (s : OxydeState) (AgentId : String)
    (locals : EmotionChannels) : OxydeState × FOxydeEmotionVector × List Event :=
  let r := UOxydeLibrary.GetAgentEmotionVector fenv s AgentId locals
  if r.2.1.1 then
    (r.1, ⟨r.2.1.2.joy, r.2.1.2.trust, r.2.1.2.fear, r.2.1.2.surprise,
           r.2.1.2.sadness, r.2.1.2.disgust, r.2.1.2.anger, r.2.1.2.anticipation⟩, r.2.2)
  else (r.1, ⟨0, 0, 0, 0, 0, 0, 0, 0⟩, r.2.2)

end UOxydeEmotionBP

/-- One invocation of an exposed operation of the binding layer, with its
arguments. -/
inductive OpCall where
  | initOp
  | createAgent (configPath : String)
  | createAgentFromJson (jsonConfig : String)
  | createAgentFromContent (contentPath : String)
  | updateAgentContext (agentId contextJson : String)
  | processInput (agentId input : String)
  | getAgentState (agentId : String)
  | getAgentEmotionVector (agentId : String) (prior : EmotionChannels)
  | addMemory (agentId category content : String) (importance : Int)
  | addEmotionalMemory (agentId category content : String) (importance valence intensity : Int)
  | getMemoryCount (agentId : String)
  | clearMemories (agentId : String)
  | getMemoriesByCategory (agentId category : String)
  | retrieveRelevantMemories (agentId query : String) (limit : Int)
  | forgetMemory (agentId memoryId : String)
  | forgetMemoriesByCategory (agentId category : String)
deriving DecidableEq

/-- Result of an exposed operation (bool, FString, int32, or the
bool-plus-out-parameters shape of the emotion query). -/
inductive OpResult where
  | b : Bool → OpResult
  | s : String → OpResult
  | i : Int → OpResult
  | emo : Bool → EmotionChannels → OpResult
deriving DecidableEq

/-- True exactly on the emotion-vector operation. -/
def OpCall.isEmotion : OpCall → Bool
  | .getAgentEmotionVector _ _ => true
  | _ => false

/-- True exactly on CreateAgentFromContent. -/
def OpCall.isFromContent : OpCall → Bool
  | .createAgentFromContent _ => true
  | _ => false

/-- Dispatch an `OpCall` to the corresponding UOxydeLibrary member. -/
def runOp (plat : Platform) (henv : HostEnv) (fenv : ForeignEnv) (s : OxydeState) :
    OpCall → OxydeState × OpResult × List Event
  | .initOp =>
      let r := UOxydeLibrary.Init plat henv fenv s
      (r.1, .b r.2.1, r.2.2)
  | .createAgent p =>
      let r := UOxydeLibrary.CreateAgent plat henv fenv s p
      (r.1, .s r.2.1, r.2.2)
  | .createAgentFromJson j =>
      let r := UOxydeLibrary.CreateAgentFromJson plat henv fenv s j
      (r.1, .s r.2.1, r.2.2)
  | .createAgentFromContent p =>
      let r := UOxydeLibrary.CreateAgentFromContent plat henv fenv s p
      (r.1, .s r.2.1, r.2.2)
  | .updateAgentContext a j =>
      let r := UOxydeLibrary.UpdateAgentContext plat henv fenv s a j
      (r.1, .b r.2.1, r.2.2)
  | .processInput a i =>
      let r := UOxydeLibrary.ProcessInput plat henv fenv s a i
      (r.1, .s r.2.1, r.2.2)
  | .getAgentState a =>
      let r := UOxydeLibrary.GetAgentState plat henv fenv s a
      (r.1, .s r.2.1, r.2.2)
  | .getAgentEmotionVector a prior =>
      let r := UOxydeLibrary.GetAgentEmotionVector fenv s a prior
      (r.1, .emo r.2.1.1 r.2.1.2, r.2.2)
  | .addMemory a c k imp =>
      let r := UOxydeLibrary.AddMemory plat henv fenv s a c k imp
      (r.1, .b r.2.1, r.2.2)
  | .addEmotionalMemory a c k imp v ity =>
      let r := UOxydeLibrary.AddEmotionalMemory plat henv fenv s a c k imp v ity
      (r.1, .b r.2.1, r.2.2)
  | .getMemoryCount a =>
      let r := UOxydeLibrary.GetMemoryCount plat henv fenv s a
      (r.1, .i r.2.1, r.2.2)
  | .clearMemories a =>
      let r := UOxydeLibrary.ClearMemories plat henv fenv s a
      (r.1, .i r.2.1, r.2.2)
  | .getMemoriesByCategory a c =>
      let r := UOxydeLibrary.GetMemoriesByCategory plat henv fenv s a c
      (r.1, .s r.2.1, r.2.2)
  | .retrieveRelevantMemories a q lim =>
      let r := UOxydeLibrary.RetrieveRelevantMemories plat henv fenv s a q lim
      (r.1, .s r.2.1, r.2.2)
  | .forgetMemory a m =>
      let r := UOxydeLibrary.ForgetMemory plat henv fenv s a m
      (r.1, .b r.2.1, r.2.2)
  | .forgetMemoriesByCategory a c =>
      let r := UOxydeLibrary.ForgetMemoriesByCategory plat henv fenv s a c
      (r.1, .i r.2.1, r.2.2)

/-- The failure sentinel each exposed operation returns when no foreign
call can be made: false, the empty FString, 0, or (for the emotion
query) false with untouched out-parameters. -/
def sentinelFor : OpCall → OpResult
  | .initOp => .b false
  | .createAgent _ => .s ""
  | .createAgentFromJson _ => .s ""
  | .createAgentFromContent _ => .s ""
  | .updateAgentContext _ _ => .b false
  | .processInput _ _ => .s ""
  | .getAgentState _ => .s ""
  | .getAgentEmotionVector _ prior => .emo false prior
  | .addMemory _ _ _ _ => .b false
  | .addEmotionalMemory _ _ _ _ _ _ => .b false
  | .getMemoryCount _ => .i 0
  | .clearMemories _ => .i 0
  | .getMemoriesByCategory _ _ => .s ""
  | .retrieveRelevantMemories _ _ _ => .s ""
  | .forgetMemory _ _ => .b false
  | .forgetMemoriesByCategory _ _ => .i 0

/-- True on events that invoke a bound foreign function pointer. -/
def isInvoke : Event → Bool
  | .call _ _ _ => true
  | .freeString _ _ => true
  | _ => false

/-- True on events that invoke a foreign function through a null pointer. -/
def isNullInvoke : Event → Bool
  | .call p _ _ => p.isNone
  | .freeString p _ => p.isNone
  | _ => false

/-- True on library-load events. -/
def isLoadEvent : Event → Bool
  | .loadLibrary _ => true
  | _ => false

/-- True on a `free_string` invocation whose argument is address `p`. -/
def isFreeOf (p : Nat) : Event → Bool
  | .freeString _ q => q == p
  | _ => false

/-- The log messages of a trace, in order. -/
def logsOf (l : List Event) : List String :=
  l.filterMap fun e => match e with
    | .log m => some m
    | _ => none

/-- Exactly one `free_string` invocation on address `p` occurs in the
trace, and it comes right after the host-side copy of the buffer at
`p`; no other `free_string` on `p` occurs anywhere. -/
def FreedOnceAfterCopy (p : Nat) (ev : List Event) : Prop :=
  ∃ fp l₁ l₂, ev = l₁ ++ Event.copyToHost p :: Event.freeString fp p :: l₂ ∧
    (l₁.filter (isFreeOf p)).length = 0 ∧ (l₂.filter (isFreeOf p)).length = 0

/-- Character-list version of the substring test used to check whether a
diagnostic names a symbol. -/
def charsStart (pat l : List Char) : Bool :=
  match pat, l with
  | [], _ => true
  | _ :: _, [] => false
  | p :: ps, c :: cs => p == c && charsStart ps cs

/-- Whether `pat` occurs as a contiguous run inside `l`. -/
def charsHasSub (pat : List Char) : List Char → Bool
  | [] => charsStart pat []
  | c :: cs => charsStart pat (c :: cs) || charsHasSub pat cs

/-- Whether string `pat` occurs inside string `s`. -/
def strHasSub (pat s : String) : Bool := charsHasSub pat.toList s.toList

/-! Concrete states and environments used by witnesses and counterexamples. -/

/-- The initial static state: every pointer is null. -/
def s0 : OxydeState :=
  ⟨none, none, none, none, none, none, none, none, none,
   none, none, none, none, none, none, none, none⟩

/-- A host environment in which the library loads and every symbol
resolves. -/
def hostEnvFull : HostEnv where
  projectPluginsDir := "Game/Plugins/"
  projectContentDir := "Game/Content"
  convertRelativePathToFull := fun p => p
  getDllHandle := fun _ => some 1
  dllExport := fun _ => some 2
  loadFileToString := fun _ => some "cfgjson"

/-- A host environment whose library lacks exactly the
`oxyde_unreal_forget_memory` export. -/
def hostEnvMissingForget : HostEnv :=
  { hostEnvFull with
    dllExport := fun n => if n = "oxyde_unreal_forget_memory" then none else some 2 }

/-- A host environment where the shared library cannot be loaded at all. -/
def hostEnvNoLoad : HostEnv :=
  { hostEnvFull with getDllHandle := fun _ => none }

/-- A simple foreign runtime in which every call succeeds. -/
def fenvDefault : ForeignEnv where
  init := true
  create_agent := fun _ => some (5, "agent-1")
  create_agent_from_json := fun _ => some (6, "agent-2")
  update_agent := fun _ _ => true
  process_input := fun _ _ => some (7, "resp")
  get_agent_state := fun _ => some (8, "state")
  get_emotion_vector := fun _ c => (true, c)
  add_memory := fun _ _ _ _ => true
  add_emotional_memory := fun _ _ _ _ _ _ => true
  get_memory_count := fun _ => 3
  clear_memories := fun _ => 3
  get_memories_by_category := fun _ _ => some (9, "mems")
  retrieve_relevant_memories := fun _ _ _ => some (10, "rel")
  forget_memory := fun _ _ => true
  forget_memories_by_category := fun _ _ => 1

/-- A foreign runtime whose create_agent returns a null pointer (e.g. the
config path does not exist). -/
def fenvCreateNull : ForeignEnv :=
  { fenvDefault with create_agent := fun _ => none }

/-- A foreign runtime whose create_agent succeeds but returns a buffer
holding the empty string. -/
def fenvCreateEmpty : ForeignEnv :=
  { fenvDefault with create_agent := fun _ => some (7, "") }

/-- A foreign runtime whose memory count is 2^31, the smallest uint32 whose
int32 reinterpretation is negative. -/
def fenvBigCount : ForeignEnv :=
  { fenvDefault with get_memory_count := fun _ => 2147483648 }

/-- All eight channels at 1, standing for arbitrary caller-held values. -/
def ch1 : EmotionChannels := ⟨1, 1, 1, 1, 1, 1, 1, 1⟩

/-- All eight channels at 0. -/
def ch0 : EmotionChannels := ⟨0, 0, 0, 0, 0, 0, 0, 0⟩

/-- The state reached by a successful initialization from the initial
state. -/
def sB : OxydeState :=
  (UOxydeLibrary.InitializeFunctionPointers .linux hostEnvFull s0).1

/-- True on any `free_string` invocation event. -/
def isFreeEvent : Event → Bool
  | .freeString _ _ => true
  | _ => false

/-- The state left behind by a CreateAgent call whose symbol binding
failed on the one missing export `oxyde_unreal_forget_memory`: the
handle is freed and reset, but the fifteen successfully resolved
pointers (including GetEmotionVectorFunc) remain stored. -/
def s1 : OxydeState :=
  (UOxydeLibrary.CreateAgent .linux hostEnvMissingForget fenvDefault s0 "cfg").1

/-! Helper lemmas about `InitializeFunctionPointers` and event traces. -/

/-- Exhaustive case analysis of `InitializeFunctionPointers`: the cached
early return, the unsupported platform, the failed load, the failed
bind, and the successful bind. -/
theorem initFP_spec (plat : Platform) (henv : HostEnv) (s : OxydeState) :
    (∃ h, s.LibraryHandle = some h ∧
       UOxydeLibrary.InitializeFunctionPointers plat henv s = (s, true, [])) ∨
    (s.LibraryHandle = none ∧ libraryNameFor plat = none ∧
       UOxydeLibrary.InitializeFunctionPointers plat henv s =
         (s, false, [Event.log unsupportedDiagnostic])) ∨
    (∃ nm, s.LibraryHandle = none ∧ libraryNameFor plat = some nm ∧
       henv.getDllHandle (resolvedLibraryPath henv plat nm) = none ∧
       UOxydeLibrary.InitializeFunctionPointers plat henv s =
         (s, false, [Event.loadLibrary (resolvedLibraryPath henv plat nm),
                     Event.log (loadFailureDiagnostic (resolvedLibraryPath henv plat nm))])) ∨
    (∃ nm h, s.LibraryHandle = none ∧ libraryNameFor plat = some nm ∧
       henv.getDllHandle (resolvedLibraryPath henv plat nm) = some h ∧
       anyMissing (bindAll henv h) = true ∧
       UOxydeLibrary.InitializeFunctionPointers plat henv s =
         ({ bindAll henv h with LibraryHandle := none }, false,
          Event.loadLibrary (resolvedLibraryPath henv plat nm) :: resolveEvents ++
            [Event.log bindFailureDiagnostic, Event.freeLibrary])) ∨
    (∃ nm h, s.LibraryHandle = none ∧ libraryNameFor plat = some nm ∧
       henv.getDllHandle (resolvedLibraryPath henv plat nm) = some h ∧
       anyMissing (bindAll henv h) = false ∧
       UOxydeLibrary.InitializeFunctionPointers plat henv s =
         (bindAll henv h, true,
          Event.loadLibrary (resolvedLibraryPath henv plat nm) :: resolveEvents ++
            [Event.log loadedDiagnostic])) := by
  cases hL : s.LibraryHandle with
  | some h =>
      refine Or.inl ⟨h, rfl, ?_⟩
      unfold UOxydeLibrary.InitializeFunctionPointers
      rw [hL]
  | none =>
      cases hp : libraryNameFor plat with
      | none =>
          refine Or.inr (Or.inl ⟨rfl, rfl, ?_⟩)
          unfold UOxydeLibrary.InitializeFunctionPointers
          rw [hL, hp]
      | some nm =>
          cases hl : henv.getDllHandle (resolvedLibraryPath henv plat nm) with
          | none =>
              refine Or.inr (Or.inr (Or.inl ⟨nm, rfl, rfl, hl, ?_⟩))
              unfold UOxydeLibrary.InitializeFunctionPointers
              rw [hL, hp]
              simp only [resolvedLibraryPath] at hl ⊢
              rw [hl]
          | some h =>
              cases hm : anyMissing (bindAll henv h) with
              | true =>
                  refine Or.inr (Or.inr (Or.inr (Or.inl ⟨nm, h, rfl, rfl, hl, hm, ?_⟩)))
                  unfold UOxydeLibrary.InitializeFunctionPointers
                  rw [hL, hp]
                  simp only [resolvedLibraryPath] at hl ⊢
                  rw [hl]
                  simp [hm]
              | false =>
                  refine Or.inr (Or.inr (Or.inr (Or.inr ⟨nm, h, rfl, rfl, hl, hm, ?_⟩)))
                  unfold UOxydeLibrary.InitializeFunctionPointers
                  rw [hL, hp]
                  simp only [resolvedLibraryPath] at hl ⊢
                  rw [hl]
                  simp [hm]

/-- Membership in the resolve-event list yields a resolveSymbol event. -/
theorem mem_resolveEvents {e : Event} (he : e ∈ resolveEvents) :
    ∃ n, e = Event.resolveSymbol n := by
  simp only [resolveEvents, List.mem_map] at he
  obtain ⟨n, _, rfl⟩ := he
  exact ⟨n, rfl⟩

/-- Bool form: no invoke event occurs in an initialization trace (the
trace consists of load, resolve, log and unload events only). -/
theorem initFP_any_invoke (plat : Platform) (henv : HostEnv) (s : OxydeState) :
    ((UOxydeLibrary.InitializeFunctionPointers plat henv s).2.2.any isInvoke) = false := by
  rcases initFP_spec plat henv s with ⟨h, hL, heq⟩ | ⟨hL, hp, heq⟩ | ⟨nm, hL, hp, hl, heq⟩ |
    ⟨nm, h, hL, hp, hl, hm, heq⟩ | ⟨nm, h, hL, hp, hl, hm, heq⟩ <;> rw [heq] <;> rfl

/-- Pointwise form of `initFP_any_invoke`. -/
theorem initFP_not_invoke (plat : Platform) (henv : HostEnv) (s : OxydeState) :
    ∀ e ∈ (UOxydeLibrary.InitializeFunctionPointers plat henv s).2.2, isInvoke e = false := by
  intro e he
  have h := initFP_any_invoke plat henv s
  rw [List.any_eq_false] at h
  have h2 := h e he
  simpa using h2

/-- A non-invoking event is in particular not a null invocation. -/
theorem not_nullInvoke_of_not_invoke {e : Event} (h : isInvoke e = false) :
    isNullInvoke e = false := by
  cases e <;> simp_all [isInvoke, isNullInvoke]

/-- No `free_string` invocation occurs in an initialization trace. -/
theorem initFP_no_free (plat : Platform) (henv : HostEnv) (s : OxydeState) (p : Nat) :
    ((UOxydeLibrary.InitializeFunctionPointers plat henv s).2.2.filter (isFreeOf p)).length
      = 0 := by
  rcases initFP_spec plat henv s with ⟨h, hL, heq⟩ | ⟨hL, hp, heq⟩ | ⟨nm, hL, hp, hl, heq⟩ |
    ⟨nm, h, hL, hp, hl, hm, heq⟩ | ⟨nm, h, hL, hp, hl, hm, heq⟩ <;> rw [heq] <;> rfl

/-- If initialization returns false, no library handle is cached
afterwards (the layer is back in Unloaded, so a later call retries). -/
theorem initFP_false_handle (plat : Platform) (henv : HostEnv) (s : OxydeState)
    (hf : (UOxydeLibrary.InitializeFunctionPointers plat henv s).2.1 = false) :
    (UOxydeLibrary.InitializeFunctionPointers plat henv s).1.LibraryHandle = none := by
  rcases initFP_spec plat henv s with ⟨h, hL, heq⟩ | ⟨hL, hp, heq⟩ | ⟨nm, hL, hp, hl, heq⟩ |
    ⟨nm, h, hL, hp, hl, hm, heq⟩ | ⟨nm, h, hL, hp, hl, hm, heq⟩ <;> rw [heq] at hf ⊢
  · cases hf
  · exact hL
  · exact hL
  · cases hf

/-- If initialization returns true from a state satisfying the table
invariant, the resulting state has a cached handle and a fully
populated table. -/
theorem initFP_true_full (plat : Platform) (henv : HostEnv) (s : OxydeState)
    (hinv : tableInv s)
    (ht : (UOxydeLibrary.InitializeFunctionPointers plat henv s).2.1 = true) :
    (UOxydeLibrary.InitializeFunctionPointers plat henv s).1.LibraryHandle ≠ none ∧
    anyMissing (UOxydeLibrary.InitializeFunctionPointers plat henv s).1 = false := by
  rcases initFP_spec plat henv s with ⟨h, hL, heq⟩ | ⟨hL, hp, heq⟩ | ⟨nm, hL, hp, hl, heq⟩ |
    ⟨nm, h, hL, hp, hl, hm, heq⟩ | ⟨nm, h, hL, hp, hl, hm, heq⟩ <;> rw [heq] at ht ⊢
  · exact ⟨by simp [hL], hinv (by simp [hL])⟩
  · cases ht
  · cases ht
  · cases ht
  · exact ⟨by simp [bindAll], hm⟩

/-- The table invariant is preserved by initialization. -/
theorem initFP_inv (plat : Platform) (henv : HostEnv) (s : OxydeState)
    (hinv : tableInv s) :
    tableInv (UOxydeLibrary.InitializeFunctionPointers plat henv s).1 := by
  rcases initFP_spec plat henv s with ⟨h, hL, heq⟩ | ⟨hL, hp, heq⟩ | ⟨nm, hL, hp, hl, heq⟩ |
    ⟨nm, h, hL, hp, hl, hm, heq⟩ | ⟨nm, h, hL, hp, hl, hm, heq⟩ <;> rw [heq]
  · exact hinv
  · exact hinv
  · exact hinv
  · intro hc
    simp at hc
  · intro _
    exact hm

/-- From an Unloaded state on a supported platform, the initialization
trace starts with the library-load attempt at the resolved path. -/
theorem initFP_loads (plat : Platform) (henv : HostEnv) (s : OxydeState) (nm : String)
    (hL : s.LibraryHandle = none) (hp : libraryNameFor plat = some nm) :
    ∃ rest, (UOxydeLibrary.InitializeFunctionPointers plat henv s).2.2 =
      Event.loadLibrary (resolvedLibraryPath henv plat nm) :: rest := by
  rcases initFP_spec plat henv s with ⟨h, hL2, heq⟩ | ⟨hL2, hp2, heq⟩ | ⟨nm2, hL2, hp2, hl, heq⟩ |
    ⟨nm2, h, hL2, hp2, hl, hm, heq⟩ | ⟨nm2, h, hL2, hp2, hl, hm, heq⟩ <;> rw [heq]
  · rw [hL] at hL2
    cases hL2
  · rw [hp] at hp2
    cases hp2
  · rw [hp] at hp2
    injection hp2 with hnm
    subst hnm
    exact ⟨_, rfl⟩
  · rw [hp] at hp2
    injection hp2 with hnm
    subst hnm
    exact ⟨_, rfl⟩
  · rw [hp] at hp2
    injection hp2 with hnm
    subst hnm
    exact ⟨_, rfl⟩

/-- Bool form: no null-pointer invocation occurs in an initialization
trace. -/
theorem any_nullInvoke_init (plat : Platform) (henv : HostEnv) (s : OxydeState) :
    ((UOxydeLibrary.InitializeFunctionPointers plat henv s).2.2.any isNullInvoke) = false := by
  rcases initFP_spec plat henv s with ⟨h, hL, heq⟩ | ⟨hL, hp, heq⟩ | ⟨nm, hL, hp, hl, heq⟩ |
    ⟨nm, h, hL, hp, hl, hm, heq⟩ | ⟨nm, h, hL, hp, hl, hm, heq⟩ <;> rw [heq] <;> rfl

/-- Unpacking of a fully populated table into the sixteen pointer facts. -/
theorem anyMissing_facts {s : OxydeState} (h : anyMissing s = false) :
    s.InitFunc.isNone = false ∧ s.CreateAgentFunc.isNone = false ∧
    s.CreateAgentFromJsonFunc.isNone = false ∧ s.UpdateAgentFunc.isNone = false ∧
    s.ProcessInputFunc.isNone = false ∧ s.GetAgentStateFunc.isNone = false ∧
    s.GetEmotionVectorFunc.isNone = false ∧ s.FreeStringFunc.isNone = false ∧
    s.AddMemoryFunc.isNone = false ∧ s.AddEmotionalMemoryFunc.isNone = false ∧
    s.GetMemoryCountFunc.isNone = false ∧ s.ClearMemoriesFunc.isNone = false ∧
    s.GetMemoriesByCategoryFunc.isNone = false ∧ s.RetrieveRelevantMemoriesFunc.isNone = false ∧
    s.ForgetMemoryFunc.isNone = false ∧ s.ForgetMemoriesByCategoryFunc.isNone = false := by
  simp only [anyMissing, Bool.or_eq_false_iff, and_assoc] at h
  exact h

/-- The marshalling tail of a string-returning call never invokes through a
null pointer when both involved pointers are non-null. -/
theorem stringResult_any_nullInvoke (cp fp : Option Nat) (nm : String) (args : List Nat)
    (res : Option (Nat × String)) (hcp : cp.isNone = false) (hfp : fp.isNone = false) :
    ((UOxydeLibrary.stringResult cp fp nm args res).2.any isNullInvoke) = false := by
  cases res <;> simp [UOxydeLibrary.stringResult, isNullInvoke, hcp, hfp]

/-! Claim theorems. -/

/-- Claim C5 (confirmed).  Initialization is idempotent and retryable: if a
library handle is already cached, `InitializeFunctionPointers` returns
success immediately with an empty event trace (no filesystem access, no
re-resolution); if it returns false, no handle is cached afterwards (so
a later call re-runs the full sequence); and from an uncached state on a
supported platform it re-attempts path resolution and the load, and
after a successful load re-resolves all sixteen symbols. -/
theorem claim_C5 :
    (∀ plat henv s h, s.LibraryHandle = some h →
       UOxydeLibrary.InitializeFunctionPointers plat henv s = (s, true, [])) ∧
    (∀ plat henv s, (UOxydeLibrary.InitializeFunctionPointers plat henv s).2.1 = false →
       (UOxydeLibrary.InitializeFunctionPointers plat henv s).1.LibraryHandle = none) ∧
    (∀ plat henv s nm, s.LibraryHandle = none → libraryNameFor plat = some nm →
       ∃ rest, (UOxydeLibrary.InitializeFunctionPointers plat henv s).2.2 =
         Event.loadLibrary (resolvedLibraryPath henv plat nm) :: rest) ∧
    (∀ plat henv s nm h, s.LibraryHandle = none → libraryNameFor plat = some nm →
       henv.getDllHandle (resolvedLibraryPath henv plat nm) = some h →
       ∃ tail, (UOxydeLibrary.InitializeFunctionPointers plat henv s).2.2 =
         Event.loadLibrary (resolvedLibraryPath henv plat nm) :: resolveEvents ++ tail) := by
  refine ⟨?_, initFP_false_handle, initFP_loads, ?_⟩
  · intro plat henv s h hs
    rcases initFP_spec plat henv s with ⟨h2, hL, heq⟩ | ⟨hL, hp, heq⟩ | ⟨nm, hL, hp, hl, heq⟩ |
      ⟨nm, h2, hL, hp, hl, hm, heq⟩ | ⟨nm, h2, hL, hp, hl, hm, heq⟩
    · exact heq
    all_goals rw [hs] at hL
    all_goals cases hL
  · intro plat henv s nm h hs hp hl
    rcases initFP_spec plat henv s with ⟨h2, hL, heq⟩ | ⟨hL, hp2, heq⟩ | ⟨nm2, hL, hp2, hl2, heq⟩ |
      ⟨nm2, h2, hL, hp2, hl2, hm, heq⟩ | ⟨nm2, h2, hL, hp2, hl2, hm, heq⟩
    · rw [hs] at hL
      cases hL
    · rw [hp] at hp2
      cases hp2
    · rw [hp] at hp2
      injection hp2 with hnm
      subst hnm
      rw [hl] at hl2
      cases hl2
    · rw [hp] at hp2
      injection hp2 with hnm
      subst hnm
      rw [heq]
      exact ⟨[Event.log bindFailureDiagnostic, Event.freeLibrary], rfl⟩
    · rw [hp] at hp2
      injection hp2 with hnm
      subst hnm
      rw [heq]
      exact ⟨[Event.log loadedDiagnostic], rfl⟩

/-- Witness for claim C5 at concrete inputs. -/
theorem claim_C5_witness :
    UOxydeLibrary.InitializeFunctionPointers .linux hostEnvFull
      { s0 with LibraryHandle := some 1 } = ({ s0 with LibraryHandle := some 1 }, true, []) ∧
    (∃ tail, (UOxydeLibrary.InitializeFunctionPointers .linux hostEnvFull s0).2.2 =
       Event.loadLibrary (resolvedLibraryPath hostEnvFull .linux "liboxyde.so") ::
         resolveEvents ++ tail) :=
  ⟨claim_C5.1 .linux hostEnvFull _ 1 rfl,
   claim_C5.2.2.2 .linux hostEnvFull s0 "liboxyde.so" 1 rfl rfl rfl⟩

/-- Claim C9 (confirmed).  When initialization fails, every exposed
operation other than GetAgentEmotionVector returns its failure sentinel
(false, the empty FString, or 0) and its trace invokes no foreign
function pointer; GetAgentEmotionVector returns false with untouched
out-parameters when its own pointer is null; and from any state
satisfying the table invariant, no operation ever calls through a null
function pointer. -/
theorem claim_C9 :
    (∀ plat henv fenv s c, OpCall.isEmotion c = false →
       (UOxydeLibrary.InitializeFunctionPointers plat henv s).2.1 = false →
       (runOp plat henv fenv s c).2.1 = sentinelFor c ∧
       (runOp plat henv fenv s c).2.2.any isInvoke = false) ∧
    (∀ fenv s a prior, s.GetEmotionVectorFunc = none →
       UOxydeLibrary.GetAgentEmotionVector fenv s a prior = (s, (false, prior), [])) ∧
    (∀ plat henv fenv s c, tableInv s →
       (runOp plat henv fenv s c).2.2.any isNullInvoke = false) := by
  refine ⟨?_, ?_, ?_⟩
  · intro plat henv fenv s c hce hI
    cases c
    case getAgentEmotionVector a prior => simp [OpCall.isEmotion] at hce
    case createAgentFromContent p =>
      simp only [runOp, UOxydeLibrary.CreateAgentFromContent]
      cases hfile : henv.loadFileToString (henv.projectContentDir ++ "/" ++ p) with
      | none => simp [sentinelFor]
      | some j => simp [UOxydeLibrary.CreateAgentFromJson, hI, sentinelFor, initFP_any_invoke]
    all_goals simp [runOp, UOxydeLibrary.Init, UOxydeLibrary.CreateAgent,
      UOxydeLibrary.CreateAgentFromJson, UOxydeLibrary.UpdateAgentContext,
      UOxydeLibrary.ProcessInput, UOxydeLibrary.GetAgentState, UOxydeLibrary.AddMemory,
      UOxydeLibrary.AddEmotionalMemory, UOxydeLibrary.GetMemoryCount,
      UOxydeLibrary.ClearMemories, UOxydeLibrary.GetMemoriesByCategory,
      UOxydeLibrary.RetrieveRelevantMemories, UOxydeLibrary.ForgetMemory,
      UOxydeLibrary.ForgetMemoriesByCategory, hI, sentinelFor, initFP_any_invoke]
  · intro fenv s a prior h
    simp [UOxydeLibrary.GetAgentEmotionVector, h]
  · intro plat henv fenv s c hinv
    cases c
    case getAgentEmotionVector a prior =>
      simp only [runOp, UOxydeLibrary.GetAgentEmotionVector]
      cases hfp : s.GetEmotionVectorFunc with
      | none => simp
      | some p => simp [isNullInvoke]
    case createAgentFromContent p =>
      simp only [runOp, UOxydeLibrary.CreateAgentFromContent]
      cases hfile : henv.loadFileToString (henv.projectContentDir ++ "/" ++ p) with
      | none => simp
      | some j =>
        cases hok : (UOxydeLibrary.InitializeFunctionPointers plat henv s).2.1 with
        | false => simp [UOxydeLibrary.CreateAgentFromJson, hok, any_nullInvoke_init]
        | true =>
          obtain ⟨f1, f2, f3, f4, f5, f6, f7, f8, f9, f10, f11, f12, f13, f14, f15, f16⟩ :=
            anyMissing_facts (initFP_true_full plat henv s hinv hok).2
          simp [UOxydeLibrary.CreateAgentFromJson, hok, List.any_append, any_nullInvoke_init,
            stringResult_any_nullInvoke, isNullInvoke, f1, f2, f3, f4, f5, f6, f7, f8, f9,
            f10, f11, f12, f13, f14, f15, f16]
    all_goals
      cases hok : (UOxydeLibrary.InitializeFunctionPointers plat henv s).2.1 with
      | false => simp [runOp, UOxydeLibrary.Init, UOxydeLibrary.CreateAgent,
          UOxydeLibrary.CreateAgentFromJson, UOxydeLibrary.UpdateAgentContext,
          UOxydeLibrary.ProcessInput, UOxydeLibrary.GetAgentState, UOxydeLibrary.AddMemory,
          UOxydeLibrary.AddEmotionalMemory, UOxydeLibrary.GetMemoryCount,
          UOxydeLibrary.ClearMemories, UOxydeLibrary.GetMemoriesByCategory,
          UOxydeLibrary.RetrieveRelevantMemories, UOxydeLibrary.ForgetMemory,
          UOxydeLibrary.ForgetMemoriesByCategory, hok, any_nullInvoke_init]
      | true =>
        obtain ⟨f1, f2, f3, f4, f5, f6, f7, f8, f9, f10, f11, f12, f13, f14, f15, f16⟩ :=
          anyMissing_facts (initFP_true_full plat henv s hinv hok).2
        simp [runOp, UOxydeLibrary.Init, UOxydeLibrary.CreateAgent,
          UOxydeLibrary.CreateAgentFromJson, UOxydeLibrary.UpdateAgentContext,
          UOxydeLibrary.ProcessInput, UOxydeLibrary.GetAgentState, UOxydeLibrary.AddMemory,
          UOxydeLibrary.AddEmotionalMemory, UOxydeLibrary.GetMemoryCount,
          UOxydeLibrary.ClearMemories, UOxydeLibrary.GetMemoriesByCategory,
          UOxydeLibrary.RetrieveRelevantMemories, UOxydeLibrary.ForgetMemory,
          UOxydeLibrary.ForgetMemoriesByCategory, hok, List.any_append, any_nullInvoke_init,
          stringResult_any_nullInvoke, isNullInvoke, f1, f2, f3, f4, f5, f6, f7, f8, f9,
          f10, f11, f12, f13, f14, f15, f16]

/-- Witness for claim C9 at concrete inputs: a failed load (sentinel, no
foreign invocation), a null emotion pointer, and a null-invocation-free
trace from the initial state. -/
theorem claim_C9_witness :
    ((runOp .linux hostEnvNoLoad fenvDefault s0 (.createAgent "cfg")).2.1 =
       sentinelFor (.createAgent "cfg") ∧
     (runOp .linux hostEnvNoLoad fenvDefault s0 (.createAgent "cfg")).2.2.any isInvoke
       = false) ∧
    UOxydeLibrary.GetAgentEmotionVector fenvDefault s0 "a" ch1 = (s0, (false, ch1), []) ∧
    (runOp .linux hostEnvFull fenvDefault s0 (.processInput "a" "hi")).2.2.any isNullInvoke
      = false :=
  ⟨claim_C9.1 .linux hostEnvNoLoad fenvDefault s0 (.createAgent "cfg") rfl rfl,
   claim_C9.2.1 fenvDefault s0 "a" ch1 rfl,
   claim_C9.2.2 .linux hostEnvFull fenvDefault s0 (.processInput "a" "hi")
     (by intro h; exact absurd rfl h)⟩

/-- Claim C4 as stated is false: GetAgentEmotionVector is an exposed
operation, yet calling it while the layer is Unloaded (the initial
state, on a supported platform, with a loadable library) performs no
load-and-bind attempt at all — its trace contains no load event — while
e.g. CreateAgent from the same state does attempt the load. -/
theorem claim_C4_counterexample :
    s0.LibraryHandle = none ∧
    (runOp .linux hostEnvFull fenvDefault s0 (.getAgentEmotionVector "a" ch0)).2.2.any
      isLoadEvent = false ∧
    (runOp .linux hostEnvFull fenvDefault s0 (.createAgent "cfg")).2.2.any isLoadEvent
      = true :=
  ⟨rfl, rfl, rfl⟩

/-- Claim C4, amended: every exposed operation except GetAgentEmotionVector
(and except CreateAgentFromContent when the content file cannot be
read) attempts the full load-and-bind sequence when called while the
layer is Unloaded; CreateAgentFromContent attempts it once the content
file is read; GetAgentEmotionVector never attempts initialization — it
only checks its cached pointer. -/
theorem claim_C4_amended :
    (∀ plat henv fenv s c nm, OpCall.isEmotion c = false → OpCall.isFromContent c = false →
       s.LibraryHandle = none → libraryNameFor plat = some nm →
       (runOp plat henv fenv s c).2.2.any isLoadEvent = true) ∧
    (∀ plat henv fenv s p j nm,
       henv.loadFileToString (henv.projectContentDir ++ "/" ++ p) = some j →
       s.LibraryHandle = none → libraryNameFor plat = some nm →
       (runOp plat henv fenv s (.createAgentFromContent p)).2.2.any isLoadEvent = true) ∧
    (∀ plat henv fenv s a prior,
       (runOp plat henv fenv s (.getAgentEmotionVector a prior)).2.2.any isLoadEvent
         = false) := by
  refine ⟨?_, ?_, ?_⟩
  · intro plat henv fenv s c nm hce hcc hL hp
    obtain ⟨rest, hev⟩ := initFP_loads plat henv s nm hL hp
    cases c
    case getAgentEmotionVector a prior => simp [OpCall.isEmotion] at hce
    case createAgentFromContent p => simp [OpCall.isFromContent] at hcc
    all_goals
      cases hok : (UOxydeLibrary.InitializeFunctionPointers plat henv s).2.1 with
      | false => simp [runOp, UOxydeLibrary.Init, UOxydeLibrary.CreateAgent,
          UOxydeLibrary.CreateAgentFromJson, UOxydeLibrary.UpdateAgentContext,
          UOxydeLibrary.ProcessInput, UOxydeLibrary.GetAgentState, UOxydeLibrary.AddMemory,
          UOxydeLibrary.AddEmotionalMemory, UOxydeLibrary.GetMemoryCount,
          UOxydeLibrary.ClearMemories, UOxydeLibrary.GetMemoriesByCategory,
          UOxydeLibrary.RetrieveRelevantMemories, UOxydeLibrary.ForgetMemory,
          UOxydeLibrary.ForgetMemoriesByCategory, hok, hev, isLoadEvent]
      | true => simp [runOp, UOxydeLibrary.Init, UOxydeLibrary.CreateAgent,
          UOxydeLibrary.CreateAgentFromJson, UOxydeLibrary.UpdateAgentContext,
          UOxydeLibrary.ProcessInput, UOxydeLibrary.GetAgentState, UOxydeLibrary.AddMemory,
          UOxydeLibrary.AddEmotionalMemory, UOxydeLibrary.GetMemoryCount,
          UOxydeLibrary.ClearMemories, UOxydeLibrary.GetMemoriesByCategory,
          UOxydeLibrary.RetrieveRelevantMemories, UOxydeLibrary.ForgetMemory,
          UOxydeLibrary.ForgetMemoriesByCategory, hok, hev, List.any_append, isLoadEvent]
  · intro plat henv fenv s p j nm hfile hL hp
    obtain ⟨rest, hev⟩ := initFP_loads plat henv s nm hL hp
    simp only [runOp, UOxydeLibrary.CreateAgentFromContent, hfile]
    cases hok : (UOxydeLibrary.InitializeFunctionPointers plat henv s).2.1 with
    | false => simp [UOxydeLibrary.CreateAgentFromJson, hok, hev, isLoadEvent]
    | true => simp [UOxydeLibrary.CreateAgentFromJson, hok, hev, List.any_append, isLoadEvent]
  · intro plat henv fenv s a prior
    simp only [runOp, UOxydeLibrary.GetAgentEmotionVector]
    cases hfp : s.GetEmotionVectorFunc with
    | none => simp
    | some q => simp [isLoadEvent]

/-- Witness for the amended claim C4 at concrete inputs. -/
theorem claim_C4_witness :
    (runOp .linux hostEnvFull fenvDefault s0 (.getMemoryCount "a")).2.2.any isLoadEvent
      = true ∧
    (runOp .linux hostEnvFull fenvDefault s0 (.createAgentFromContent "Agent.json")).2.2.any
      isLoadEvent = true ∧
    (runOp .linux hostEnvFull fenvDefault s0 (.getAgentEmotionVector "a" ch1)).2.2.any
      isLoadEvent = false :=
  ⟨claim_C4_amended.1 .linux hostEnvFull fenvDefault s0 (.getMemoryCount "a") "liboxyde.so"
     rfl rfl rfl rfl,
   claim_C4_amended.2.1 .linux hostEnvFull fenvDefault s0 "Agent.json" "cfgjson" "liboxyde.so"
     rfl rfl rfl,
   claim_C4_amended.2.2 .linux hostEnvFull fenvDefault s0 "a" ch1⟩

/-- Claim C1's final clause is false: after a failed bind the symbol table
is partially filled (`anyMissing s1 = true`, no handle), yet the
exposed operation GetAgentEmotionVector still observes it — it finds
its own stale pointer non-null and invokes a foreign function while
the table is partial. -/
theorem claim_C1_counterexample :
    anyMissing s1 = true ∧ s1.LibraryHandle = none ∧
    (runOp .linux hostEnvMissingForget fenvDefault s1
       (.getAgentEmotionVector "a" ch0)).2.2.any isInvoke = true :=
  ⟨rfl, rfl, rfl⟩

/-- Claim C1, amended: InitializeFunctionPointers itself is atomic — on
any missing symbol it frees the handle, resets it to null and returns
false, and whenever it returns true (from a state satisfying the table
invariant) the handle and all sixteen pointers are non-null; every
exposed operation except GetAgentEmotionVector invokes foreign
functions only against a fully populated table, but the pointers
assigned during a failed bind remain stored, and GetAgentEmotionVector
(which checks only its own pointer) can invoke through such a stale
partial table. -/
theorem claim_C1_amended :
    (∀ plat henv s nm h, s.LibraryHandle = none → libraryNameFor plat = some nm →
       henv.getDllHandle (resolvedLibraryPath henv plat nm) = some h →
       anyMissing (bindAll henv h) = true →
       UOxydeLibrary.InitializeFunctionPointers plat henv s =
         ({ bindAll henv h with LibraryHandle := none }, false,
          Event.loadLibrary (resolvedLibraryPath henv plat nm) :: resolveEvents ++
            [Event.log bindFailureDiagnostic, Event.freeLibrary])) ∧
    (∀ plat henv s, tableInv s →
       (UOxydeLibrary.InitializeFunctionPointers plat henv s).2.1 = true →
       (UOxydeLibrary.InitializeFunctionPointers plat henv s).1.LibraryHandle ≠ none ∧
       anyMissing (UOxydeLibrary.InitializeFunctionPointers plat henv s).1 = false) ∧
    (∀ plat henv fenv s c, tableInv s → OpCall.isEmotion c = false →
       (runOp plat henv fenv s c).2.2.any isInvoke = true →
       anyMissing (runOp plat henv fenv s c).1 = false) := by
  refine ⟨?_, initFP_true_full, ?_⟩
  · intro plat henv s nm h hs hp hl hm
    unfold UOxydeLibrary.InitializeFunctionPointers
    rw [hs, hp]
    simp only [resolvedLibraryPath] at hl ⊢
    rw [hl]
    simp [hm]
  · intro plat henv fenv s c hinv hce hinvk
    cases c
    case getAgentEmotionVector a prior => simp [OpCall.isEmotion] at hce
    case createAgentFromContent p =>
      simp only [runOp, UOxydeLibrary.CreateAgentFromContent] at hinvk ⊢
      cases hfile : henv.loadFileToString (henv.projectContentDir ++ "/" ++ p) with
      | none =>
        rw [hfile] at hinvk
        simp at hinvk
      | some j =>
        rw [hfile] at hinvk
        cases hok : (UOxydeLibrary.InitializeFunctionPointers plat henv s).2.1 with
        | false =>
          simp only [UOxydeLibrary.CreateAgentFromJson, hok, Bool.false_eq_true,
            if_false] at hinvk
          rw [initFP_any_invoke] at hinvk
          cases hinvk
        | true =>
          have hfull := (initFP_true_full plat henv s hinv hok).2
          simp [UOxydeLibrary.CreateAgentFromJson, hok, hfull]
    all_goals
      cases hok : (UOxydeLibrary.InitializeFunctionPointers plat henv s).2.1 with
      | false =>
        simp only [runOp, UOxydeLibrary.Init, UOxydeLibrary.CreateAgent,
          UOxydeLibrary.CreateAgentFromJson, UOxydeLibrary.UpdateAgentContext,
          UOxydeLibrary.ProcessInput, UOxydeLibrary.GetAgentState, UOxydeLibrary.AddMemory,
          UOxydeLibrary.AddEmotionalMemory, UOxydeLibrary.GetMemoryCount,
          UOxydeLibrary.ClearMemories, UOxydeLibrary.GetMemoriesByCategory,
          UOxydeLibrary.RetrieveRelevantMemories, UOxydeLibrary.ForgetMemory,
          UOxydeLibrary.ForgetMemoriesByCategory, hok, Bool.false_eq_true, if_false] at hinvk
        rw [initFP_any_invoke] at hinvk
        cases hinvk
      | true =>
        have hfull := (initFP_true_full plat henv s hinv hok).2
        simp [runOp, UOxydeLibrary.Init, UOxydeLibrary.CreateAgent,
          UOxydeLibrary.CreateAgentFromJson, UOxydeLibrary.UpdateAgentContext,
          UOxydeLibrary.ProcessInput, UOxydeLibrary.GetAgentState, UOxydeLibrary.AddMemory,
          UOxydeLibrary.AddEmotionalMemory, UOxydeLibrary.GetMemoryCount,
          UOxydeLibrary.ClearMemories, UOxydeLibrary.GetMemoriesByCategory,
          UOxydeLibrary.RetrieveRelevantMemories, UOxydeLibrary.ForgetMemory,
          UOxydeLibrary.ForgetMemoriesByCategory, hok, hfull]

/-- Witness for the amended claim C1 at concrete inputs: the failed-bind
equation against the library missing `oxyde_unreal_forget_memory`, the
handle-and-full-table consequence of a successful initialization, and
the full-table-on-invoke property of CreateAgent. -/
theorem claim_C1_witness :
    UOxydeLibrary.InitializeFunctionPointers .linux hostEnvMissingForget s0 =
      ({ bindAll hostEnvMissingForget 1 with LibraryHandle := none }, false,
       Event.loadLibrary (resolvedLibraryPath hostEnvMissingForget .linux "liboxyde.so") ::
         resolveEvents ++ [Event.log bindFailureDiagnostic, Event.freeLibrary]) ∧
    anyMissing (UOxydeLibrary.InitializeFunctionPointers .linux hostEnvFull s0).1 = false ∧
    anyMissing (runOp .linux hostEnvFull fenvDefault s0 (.createAgent "cfg")).1 = false :=
  ⟨claim_C1_amended.1 .linux hostEnvMissingForget s0 "liboxyde.so" 1 rfl rfl rfl rfl,
   (claim_C1_amended.2.1 .linux hostEnvFull s0 (by intro h; exact absurd rfl h) rfl).2,
   claim_C1_amended.2.2 .linux hostEnvFull fenvDefault s0 (.createAgent "cfg")
     (by intro h; exact absurd rfl h) rfl rfl⟩

/-- Bool form: no `free_string` event occurs in an initialization trace. -/
theorem initFP_any_freeEvent (plat : Platform) (henv : HostEnv) (s : OxydeState) :
    ((UOxydeLibrary.InitializeFunctionPointers plat henv s).2.2.any isFreeEvent) = false := by
  rcases initFP_spec plat henv s with ⟨h, hL, heq⟩ | ⟨hL, hp, heq⟩ | ⟨nm, hL, hp, hl, heq⟩ |
    ⟨nm, h, hL, hp, hl, hm, heq⟩ | ⟨nm, h, hL, hp, hl, hm, heq⟩ <;> rw [heq] <;> rfl

/-- Appending the copy-then-free marshalling tail after a free-less prefix
and one non-free call event frees the buffer exactly once, right after
the copy. -/
theorem freedOnce_cons (ev0 : List Event) (h0 : ∀ q, (ev0.filter (isFreeOf q)).length = 0)
    (c1 : Event) (hc1 : isFreeEvent c1 = false) (fp : Option Nat) (p : Nat) :
    FreedOnceAfterCopy p (ev0 ++ [c1, Event.copyToHost p, Event.freeString fp p]) := by
  refine ⟨fp, ev0 ++ [c1], [], by simp, ?_, rfl⟩
  rw [List.filter_append]
  simp only [List.length_append, h0 p, Nat.zero_add]
  cases c1 <;> simp_all [isFreeOf, isFreeEvent]

/-- Claim C2 (confirmed).  For each of the six operations whose foreign
call returns a string pointer (CreateAgent, CreateAgentFromJson,
ProcessInput, GetAgentState, GetMemoriesByCategory,
RetrieveRelevantMemories): when initialization succeeded and the
foreign call returns a non-null pointer `p`, the operation's trace
invokes `free_string` on exactly that pointer exactly once, immediately
after the host-owned copy of the buffer and before the operation
returns; when the foreign call returns a null pointer, no `free_string`
invocation occurs anywhere in the trace. -/
theorem claim_C2 : ∀ plat henv fenv s a b lim,
    (UOxydeLibrary.InitializeFunctionPointers plat henv s).2.1 = true →
    ((∀ p str, fenv.create_agent a = some (p, str) →
        FreedOnceAfterCopy p (UOxydeLibrary.CreateAgent plat henv fenv s a).2.2) ∧
     (fenv.create_agent a = none →
        (UOxydeLibrary.CreateAgent plat henv fenv s a).2.2.any isFreeEvent = false)) ∧
    ((∀ p str, fenv.create_agent_from_json a = some (p, str) →
        FreedOnceAfterCopy p (UOxydeLibrary.CreateAgentFromJson plat henv fenv s a).2.2) ∧
     (fenv.create_agent_from_json a = none →
        (UOxydeLibrary.CreateAgentFromJson plat henv fenv s a).2.2.any isFreeEvent = false)) ∧
    ((∀ p str, fenv.process_input a b = some (p, str) →
        FreedOnceAfterCopy p (UOxydeLibrary.ProcessInput plat henv fenv s a b).2.2) ∧
     (fenv.process_input a b = none →
        (UOxydeLibrary.ProcessInput plat henv fenv s a b).2.2.any isFreeEvent = false)) ∧
    ((∀ p str, fenv.get_agent_state a = some (p, str) →
        FreedOnceAfterCopy p (UOxydeLibrary.GetAgentState plat henv fenv s a).2.2) ∧
     (fenv.get_agent_state a = none →
        (UOxydeLibrary.GetAgentState plat henv fenv s a).2.2.any isFreeEvent = false)) ∧
    ((∀ p str, fenv.get_memories_by_category a b = some (p, str) →
        FreedOnceAfterCopy p (UOxydeLibrary.GetMemoriesByCategory plat henv fenv s a b).2.2) ∧
     (fenv.get_memories_by_category a b = none →
        (UOxydeLibrary.GetMemoriesByCategory plat henv fenv s a b).2.2.any isFreeEvent
          = false)) ∧
    ((∀ p str, fenv.retrieve_relevant_memories a b (uint32OfInt lim) = some (p, str) →
        FreedOnceAfterCopy p
          (UOxydeLibrary.RetrieveRelevantMemories plat henv fenv s a b lim).2.2) ∧
     (fenv.retrieve_relevant_memories a b (uint32OfInt lim) = none →
        (UOxydeLibrary.RetrieveRelevantMemories plat henv fenv s a b lim).2.2.any isFreeEvent
          = false)) := by
  intro plat henv fenv s a b lim hok
  refine ⟨⟨?_, ?_⟩, ⟨?_, ?_⟩, ⟨?_, ?_⟩, ⟨?_, ?_⟩, ⟨?_, ?_⟩, ⟨?_, ?_⟩⟩
  · intro p str hres
    simp only [UOxydeLibrary.CreateAgent, hok, if_true, hres, UOxydeLibrary.stringResult]
    refine freedOnce_cons _ (initFP_no_free plat henv s) _ ?_ _ p
    rfl
  · intro hres
    simp [UOxydeLibrary.CreateAgent, hok, hres, UOxydeLibrary.stringResult, List.any_append,
      initFP_any_freeEvent, isFreeEvent]
  · intro p str hres
    simp only [UOxydeLibrary.CreateAgentFromJson, hok, if_true, hres,
      UOxydeLibrary.stringResult]
    refine freedOnce_cons _ (initFP_no_free plat henv s) _ ?_ _ p
    rfl
  · intro hres
    simp [UOxydeLibrary.CreateAgentFromJson, hok, hres, UOxydeLibrary.stringResult,
      List.any_append, initFP_any_freeEvent, isFreeEvent]
  · intro p str hres
    simp only [UOxydeLibrary.ProcessInput, hok, if_true, hres, UOxydeLibrary.stringResult]
    refine freedOnce_cons _ (initFP_no_free plat henv s) _ ?_ _ p
    rfl
  · intro hres
    simp [UOxydeLibrary.ProcessInput, hok, hres, UOxydeLibrary.stringResult, List.any_append,
      initFP_any_freeEvent, isFreeEvent]
  · intro p str hres
    simp only [UOxydeLibrary.GetAgentState, hok, if_true, hres, UOxydeLibrary.stringResult]
    refine freedOnce_cons _ (initFP_no_free plat henv s) _ ?_ _ p
    rfl
  · intro hres
    simp [UOxydeLibrary.GetAgentState, hok, hres, UOxydeLibrary.stringResult, List.any_append,
      initFP_any_freeEvent, isFreeEvent]
  · intro p str hres
    simp only [UOxydeLibrary.GetMemoriesByCategory, hok, if_true, hres,
      UOxydeLibrary.stringResult]
    refine freedOnce_cons _ (initFP_no_free plat henv s) _ ?_ _ p
    rfl
  · intro hres
    simp [UOxydeLibrary.GetMemoriesByCategory, hok, hres, UOxydeLibrary.stringResult,
      List.any_append, initFP_any_freeEvent, isFreeEvent]
  · intro p str hres
    simp only [UOxydeLibrary.RetrieveRelevantMemories, hok, if_true, hres,
      UOxydeLibrary.stringResult]
    refine freedOnce_cons _ (initFP_no_free plat henv s) _ ?_ _ p
    rfl
  · intro hres
    simp [UOxydeLibrary.RetrieveRelevantMemories, hok, hres, UOxydeLibrary.stringResult,
      List.any_append, initFP_any_freeEvent, isFreeEvent]

/-- Witness for claim C2 at concrete inputs: a successful CreateAgent call
frees its foreign buffer exactly once after copying it, and a failed one
(null result) performs no `free_string` invocation. -/
theorem claim_C2_witness :
    FreedOnceAfterCopy 5 (UOxydeLibrary.CreateAgent .linux hostEnvFull fenvDefault
      s0 "cfg").2.2 ∧
    (UOxydeLibrary.CreateAgent .linux hostEnvFull fenvCreateNull s0 "cfg").2.2.any isFreeEvent
      = false :=
  ⟨(claim_C2 .linux hostEnvFull fenvDefault s0 "cfg" "q" 0 rfl).1.1 5 "agent-1" rfl,
   (claim_C2 .linux hostEnvFull fenvCreateNull s0 "cfg" "q" 0 rfl).1.2 rfl⟩

/-- Claim C3 as stated is false: binding against a library missing exactly
the export `oxyde_unreal_forget_memory` logs only the generic constant
"Failed to load one or more Oxyde SDK functions", and the name of the
missing symbol does not occur in any logged message, so the failed
attempt does not name the symbols that failed to resolve. -/
theorem claim_C3_counterexample :
    ¬ (∀ nm ∈ symbolNames.filter (fun n => (hostEnvMissingForget.dllExport n).isNone),
        ∃ m ∈ logsOf (UOxydeLibrary.InitializeFunctionPointers .linux hostEnvMissingForget
          s0).2.2, strHasSub nm m = true) := by
  intro hcl
  have hmem : "oxyde_unreal_forget_memory" ∈
      symbolNames.filter (fun n => (hostEnvMissingForget.dllExport n).isNone) := by decide
  obtain ⟨m, hm, hsub⟩ := hcl "oxyde_unreal_forget_memory" hmem
  have hm2 : m = bindFailureDiagnostic := by
    have : logsOf (UOxydeLibrary.InitializeFunctionPointers .linux hostEnvMissingForget
        s0).2.2 = [bindFailureDiagnostic] := by decide
    rw [this] at hm
    exact List.mem_singleton.mp hm
  rw [hm2] at hsub
  have : strHasSub "oxyde_unreal_forget_memory" bindFailureDiagnostic = false := by decide
  rw [this] at hsub
  cases hsub

/-- Claim C3, amended: a failed bind logs exactly one generic diagnostic,
the constant "Failed to load one or more Oxyde SDK functions"; it is
independent of which symbols are missing and contains none of the
sixteen symbol names, so the missing symbols are not diagnosable from
the report. -/
theorem claim_C3_amended :
    (∀ plat henv s nm h, s.LibraryHandle = none → libraryNameFor plat = some nm →
       henv.getDllHandle (resolvedLibraryPath henv plat nm) = some h →
       anyMissing (bindAll henv h) = true →
       logsOf (UOxydeLibrary.InitializeFunctionPointers plat henv s).2.2 =
         [bindFailureDiagnostic]) ∧
    (∀ nm ∈ symbolNames, strHasSub nm bindFailureDiagnostic = false) := by
  constructor
  · intro plat henv s nm h hs hp hl hm
    unfold UOxydeLibrary.InitializeFunctionPointers
    rw [hs, hp]
    simp only [resolvedLibraryPath] at hl ⊢
    rw [hl]
    simp only [hm, if_true]
    rfl
  · decide

/-- Witness for the amended claim C3 at concrete inputs. -/
theorem claim_C3_witness :
    logsOf (UOxydeLibrary.InitializeFunctionPointers .linux hostEnvMissingForget s0).2.2 =
      [bindFailureDiagnostic] ∧
    strHasSub "oxyde_unreal_forget_memory" bindFailureDiagnostic = false :=
  ⟨claim_C3_amended.1 .linux hostEnvMissingForget s0 "liboxyde.so" 1 rfl rfl rfl rfl,
   claim_C3_amended.2 "oxyde_unreal_forget_memory" (by decide)⟩

/-- Claim C6 as stated is false: the failure result of CreateAgent when
the foreign call returns a null pointer is the empty FString, which is
identical to — and hence not distinguishable from — the result of a
successful foreign call that returns a buffer holding the empty
string. -/
theorem claim_C6_counterexample :
    fenvCreateNull.create_agent "missing.json" = none ∧
    fenvCreateEmpty.create_agent "missing.json" = some (7, "") ∧
    (UOxydeLibrary.CreateAgent .linux hostEnvFull fenvCreateNull s0 "missing.json").2.1 =
      (UOxydeLibrary.CreateAgent .linux hostEnvFull fenvCreateEmpty s0 "missing.json").2.1 :=
  ⟨rfl, rfl, rfl⟩

/-- Claim C6, amended: the operations signal failure only through in-band
sentinel defaults, not through a distinguishable failure indicator.
CreateAgent returns the empty FString both when initialization fails
and when the foreign call returns null (the header's documented "or
empty if failed" sentinel), and returns the decoded foreign string on
success — so the failure value coincides with a successful creation
whose returned id is empty; likewise GetMemoryCount returns 0 on
initialization failure, which coincides with a genuine count of 0. -/
theorem claim_C6_amended :
    (∀ plat henv fenv s a,
       (UOxydeLibrary.InitializeFunctionPointers plat henv s).2.1 = false →
       (UOxydeLibrary.CreateAgent plat henv fenv s a).2.1 = "") ∧
    (∀ plat henv fenv s a,
       (UOxydeLibrary.InitializeFunctionPointers plat henv s).2.1 = true →
       fenv.create_agent a = none →
       (UOxydeLibrary.CreateAgent plat henv fenv s a).2.1 = "") ∧
    (∀ plat henv fenv s a p str,
       (UOxydeLibrary.InitializeFunctionPointers plat henv s).2.1 = true →
       fenv.create_agent a = some (p, str) →
       (UOxydeLibrary.CreateAgent plat henv fenv s a).2.1 = str) ∧
    (∀ plat henv fenv s a,
       (UOxydeLibrary.InitializeFunctionPointers plat henv s).2.1 = false →
       (UOxydeLibrary.GetMemoryCount plat henv fenv s a).2.1 = 0) := by
  refine ⟨?_, ?_, ?_, ?_⟩
  · intro plat henv fenv s a hf
    simp [UOxydeLibrary.CreateAgent, hf]
  · intro plat henv fenv s a ht hres
    simp [UOxydeLibrary.CreateAgent, ht, hres, UOxydeLibrary.stringResult]
  · intro plat henv fenv s a p str ht hres
    simp [UOxydeLibrary.CreateAgent, ht, hres, UOxydeLibrary.stringResult]
  · intro plat henv fenv s a hf
    simp [UOxydeLibrary.GetMemoryCount, hf]

/-- Witness for the amended claim C6 at concrete inputs. -/
theorem claim_C6_witness :
    (UOxydeLibrary.CreateAgent .linux hostEnvNoLoad fenvDefault s0 "cfg").2.1 = "" ∧
    (UOxydeLibrary.CreateAgent .linux hostEnvFull fenvDefault s0 "cfg").2.1 = "agent-1" ∧
    (UOxydeLibrary.GetMemoryCount .linux hostEnvNoLoad fenvDefault s0 "a").2.1 = 0 :=
  ⟨claim_C6_amended.1 .linux hostEnvNoLoad fenvDefault s0 "cfg" rfl,
   claim_C6_amended.2.2.1 .linux hostEnvFull fenvDefault s0 "cfg" 5 "agent-1" rfl rfl,
   claim_C6_amended.2.2.2 .linux hostEnvNoLoad fenvDefault s0 "a" rfl⟩

/-- Claim C7 as stated is false for the library-level operation: when the
emotion function pointer is null, UOxydeLibrary::GetAgentEmotionVector
returns false but leaves the eight out-parameters at their prior,
caller-held values (here all 1), not at the documented default 0.0. -/
theorem claim_C7_counterexample :
    s0.GetEmotionVectorFunc = none ∧
    (UOxydeLibrary.GetAgentEmotionVector fenvDefault s0 "a" ch1).2.1 = (false, ch1) ∧
    ch1.joy ≠ 0 :=
  ⟨rfl, rfl, by decide⟩

/-- Claim C7, amended: on failure UOxydeLibrary::GetAgentEmotionVector
returns false and leaves its out-parameters unmodified (it does not
reset them to 0.0); the Blueprint-level
UOxydeEmotionBP::GetAgentEmotionVector, by contrast, returns the
default-constructed struct with all eight channels at 0.0 whenever the
underlying call fails, and the fully populated struct on success —
never a partially populated one. -/
theorem claim_C7_amended :
    (∀ fenv s a prior, s.GetEmotionVectorFunc = none →
       UOxydeLibrary.GetAgentEmotionVector fenv s a prior = (s, (false, prior), [])) ∧
    (∀ fenv s a locals,
       (UOxydeLibrary.GetAgentEmotionVector fenv s a locals).2.1.1 = false →
       (UOxydeEmotionBP.GetAgentEmotionVector fenv s a locals).2.1 =
         ⟨0, 0, 0, 0, 0, 0, 0, 0⟩) ∧
    (∀ fenv s a locals ok vals, s.GetEmotionVectorFunc ≠ none →
       fenv.get_emotion_vector a locals = (ok, vals) → ok = true →
       (UOxydeEmotionBP.GetAgentEmotionVector fenv s a locals).2.1 =
         ⟨vals.joy, vals.trust, vals.fear, vals.surprise, vals.sadness, vals.disgust,
          vals.anger, vals.anticipation⟩) := by
  refine ⟨?_, ?_, ?_⟩
  · intro fenv s a prior h
    simp [UOxydeLibrary.GetAgentEmotionVector, h]
  · intro fenv s a locals h
    simp [UOxydeEmotionBP.GetAgentEmotionVector, h]
  · intro fenv s a locals ok vals hfp hres hok
    subst hok
    cases hp : s.GetEmotionVectorFunc with
    | none => exact absurd hp hfp
    | some q =>
        simp [UOxydeEmotionBP.GetAgentEmotionVector, UOxydeLibrary.GetAgentEmotionVector,
          hp, hres]

/-- Witness for the amended claim C7 at concrete inputs. -/
theorem claim_C7_witness :
    UOxydeLibrary.GetAgentEmotionVector fenvDefault s0 "a" ch1 = (s0, (false, ch1), []) ∧
    (UOxydeEmotionBP.GetAgentEmotionVector fenvDefault s0 "a" ch1).2.1 =
      ⟨0, 0, 0, 0, 0, 0, 0, 0⟩ ∧
    (UOxydeEmotionBP.GetAgentEmotionVector fenvDefault sB "a" ch1).2.1 =
      ⟨1, 1, 1, 1, 1, 1, 1, 1⟩ :=
  ⟨claim_C7_amended.1 fenvDefault s0 "a" ch1 rfl,
   claim_C7_amended.2.1 fenvDefault s0 "a" ch1 rfl,
   claim_C7_amended.2.2 fenvDefault sB "a" ch1 true ch1 (by decide) rfl rfl⟩

/-- Claim C8 as stated is false: when the foreign get_memory_count
function returns the uint32 value 2^31, GetMemoryCount's int32 result is
-2147483648, a negative integer. -/
theorem claim_C8_counterexample :
    (UOxydeLibrary.GetMemoryCount .linux hostEnvFull fenvBigCount s0 "a").2.1 =
      -2147483648 ∧
    ¬ (0 ≤ (UOxydeLibrary.GetMemoryCount .linux hostEnvFull fenvBigCount s0 "a").2.1) := by
  constructor
  · decide
  · decide

/-- Claim C8, amended: GetMemoryCount returns the foreign uint32 count
reinterpreted as an int32; the result is non-negative exactly when the
(mod-2^32-reduced) count is below 2^31, and every count in
[2^31, 2^32) converts to a negative value. -/
theorem claim_C8_amended :
    (∀ plat henv fenv s a,
       (UOxydeLibrary.InitializeFunctionPointers plat henv s).2.1 = true →
       (UOxydeLibrary.GetMemoryCount plat henv fenv s a).2.1 =
         int32OfUInt32 (fenv.get_memory_count a)) ∧
    (∀ plat henv fenv s a,
       (UOxydeLibrary.InitializeFunctionPointers plat henv s).2.1 = true →
       fenv.get_memory_count a % 4294967296 < 2147483648 →
       0 ≤ (UOxydeLibrary.GetMemoryCount plat henv fenv s a).2.1) ∧
    (∀ n : Nat, 2147483648 ≤ n % 4294967296 → int32OfUInt32 n < 0) := by
  refine ⟨?_, ?_, ?_⟩
  · intro plat henv fenv s a hok
    simp [UOxydeLibrary.GetMemoryCount, hok]
  · intro plat henv fenv s a hok hlt
    simp only [UOxydeLibrary.GetMemoryCount, hok, if_true, int32OfUInt32]
    rw [if_pos hlt]
    exact Int.ofNat_nonneg _
  · intro n hge
    have hlt := Nat.mod_lt n (show 0 < 4294967296 by decide)
    simp only [int32OfUInt32]
    split <;> omega

/-- Witness for the amended claim C8 at concrete inputs. -/
theorem claim_C8_witness :
    (UOxydeLibrary.GetMemoryCount .linux hostEnvFull fenvDefault s0 "a").2.1 =
      int32OfUInt32 (fenvDefault.get_memory_count "a") ∧
    0 ≤ (UOxydeLibrary.GetMemoryCount .linux hostEnvFull fenvDefault s0 "a").2.1 ∧
    int32OfUInt32 2147483648 < 0 :=
  ⟨claim_C8_amended.1 .linux hostEnvFull fenvDefault s0 "a" rfl,
   claim_C8_amended.2.1 .linux hostEnvFull fenvDefault s0 "a" rfl (by decide),
   claim_C8_amended.2.2 2147483648 (by decide)⟩

/-- Claim C10 (confirmed).  RetrieveRelevantMemories hands the foreign
function its int32 Limit reduced modulo 2^32 into an unsigned 32-bit
value: the recorded call event carries `uint32OfInt Limit` as the
integer argument and the foreign result is consumed at exactly that
limit; for every negative in-range Limit the value received is
Limit + 2^32, and for every non-negative in-range Limit it is Limit
itself. -/
theorem claim_C10 :
    (∀ plat henv fenv s a q lim,
       (UOxydeLibrary.InitializeFunctionPointers plat henv s).2.1 = true →
       Event.call
           (UOxydeLibrary.InitializeFunctionPointers plat henv
             s).1.RetrieveRelevantMemoriesFunc
           "oxyde_unreal_retrieve_relevant_memories" [uint32OfInt lim] ∈
         (UOxydeLibrary.RetrieveRelevantMemories plat henv fenv s a q lim).2.2 ∧
       (∀ p str, fenv.retrieve_relevant_memories a q (uint32OfInt lim) = some (p, str) →
          (UOxydeLibrary.RetrieveRelevantMemories plat henv fenv s a q lim).2.1 = str)) ∧
    (∀ lim : Int, -2147483648 ≤ lim → lim < 0 →
       (uint32OfInt lim : Int) = lim + 4294967296) ∧
    (∀ lim : Int, 0 ≤ lim → lim < 2147483648 → (uint32OfInt lim : Int) = lim) := by
  refine ⟨?_, ?_, ?_⟩
  · intro plat henv fenv s a q lim hok
    constructor
    · cases hres : fenv.retrieve_relevant_memories a q (uint32OfInt lim) with
      | none =>
          simp [UOxydeLibrary.RetrieveRelevantMemories, hok, hres,
            UOxydeLibrary.stringResult]
      | some pr =>
          simp [UOxydeLibrary.RetrieveRelevantMemories, hok, hres,
            UOxydeLibrary.stringResult]
    · intro p str hres
      simp [UOxydeLibrary.RetrieveRelevantMemories, hok, hres, UOxydeLibrary.stringResult]
  · intro lim h1 h2
    simp only [uint32OfInt]
    omega
  · intro lim h1 h2
    simp only [uint32OfInt]
    omega

/-- Witness for claim C10 at concrete inputs: Limit = -1 reaches the
foreign function as 4294967295. -/
theorem claim_C10_witness :
    Event.call (some 2) "oxyde_unreal_retrieve_relevant_memories" [4294967295] ∈
      (UOxydeLibrary.RetrieveRelevantMemories .linux hostEnvFull fenvDefault s0 "a" "q"
        (-1)).2.2 ∧
    (uint32OfInt (-1) : Int) = -1 + 4294967296 := by
  constructor
  · exact (claim_C10.1 .linux hostEnvFull fenvDefault s0 "a" "q" (-1) rfl).1
  · exact claim_C10.2.1 (-1) (by decide) (by decide)

end Oxyde
